import Mathlib

/-!
Shallow embedding of `op_registration` (src/op_registration/src/op_registration/
OP_registration.py) for verifying the specification's claims.

Browser interaction is modelled as a trace of `Action`s produced by each
function; the page's observable state (response status, element visibility,
whether a bounded wait times out) is an explicit `PageEnv` record.  Python
exceptions are modelled by an `Option PwError` component threaded through the
orchestration functions: `PwError.timeoutErr` stands for
`playwright.sync_api.TimeoutError` (the only class caught by
`launch_registration_process`), while `PwError.otherErr` stands for any other
exception an interaction can raise (e.g. `playwright.Error` on a failed
navigation); an uncaught error propagates out of the modelled call exactly as
in Python.  The persisted `.env` file is an `EnvStore` record with one
`Option String` per key (`none` = key absent, as `os.getenv` returns `None`).
-/

namespace OpReg

/-- The four position choices offered by the `set-registration` checkbox
prompt (InquirerPy restricts the selection to these). -/
inductive Position where
  | Setter
  | Outside
  | Middle
  | Opposite
deriving DecidableEq, Repr

def Position.toStr : Position → String
  | .Setter => "Setter"
  | .Outside => "Outside"
  | .Middle => "Middle"
  | .Opposite => "Opposite"

/-- Whitespace predicate used by Python's `str.strip()` (restricted to the
common ASCII whitespace characters, which is all that matters here). -/
def wsb (c : Char) : Bool :=
  c = ' ' || c = '\t' || c = '\n' || c = '\r'

/-- Python's `value.strip()`: drop whitespace from both ends. -/
def pyStrip (s : String) : String :=
  String.mk (((s.data.dropWhile wsb).reverse.dropWhile wsb).reverse)

/-- Python's `",".join(values)`. -/
def joinComma : List String → String
  | [] => ""
  | [x] => x
  | x :: y :: t => x ++ "," ++ joinComma (y :: t)

/-- The persisted `.env` key-value store (keys EMAIL, PASSWORD, SIGNATURE,
URL, POSITIONS); `none` models an absent key. -/
structure EnvStore where
  email : Option String
  password : Option String
  signature : Option String
  url : Option String
  positions : Option String
deriving DecidableEq, Repr

/-- The in-memory `credentials` dictionary built by `load_env_variables`
and mutated by the prompt code (values are not stripped in memory; stripping
happens only when `save_to_env` writes them back). -/
structure Credentials where
  email : Option String
  password : Option String
  signature : Option String
  url : Option String
  positions : Option String
deriving DecidableEq, Repr

/-- `load_env_variables`: read the five keys from the store. -/
def load_env_variables (st : EnvStore) : Credentials :=
  ⟨st.email, st.password, st.signature, st.url, st.positions⟩

/-- `set_key(env_path, key.upper(), (value or "").strip())` for one key. -/
def setKey (v : Option String) : Option String :=
  some (pyStrip (v.getD ""))

/-- `save_to_env`: write every key of the dictionary back to the store,
stripping each value. -/
def save_to_env (c : Credentials) : EnvStore :=
  ⟨setKey c.email, setKey c.password, setKey c.signature, setKey c.url,
   setKey c.positions⟩

/-- The three interactive answers collected by `set_credentials`. -/
structure CredPrompts where
  email : String
  password : String
  signature : String
deriving DecidableEq, Repr

/-- `set_credentials`: load the store, prompt for email, password and
signature (the source prompts unconditionally, overwriting whatever was
loaded), save everything back, and return the in-memory dictionary. -/
def set_credentials (st : EnvStore) (p : CredPrompts) :
    EnvStore × Credentials :=
  let c0 := load_env_variables st
  let c1 : Credentials :=
    { c0 with email := some p.email, password := some p.password,
              signature := some p.signature }
  (save_to_env c1, c1)

/-- The two interactive answers collected by `set_registration`: the event
URL (free text) and the multi-select position list. -/
structure RegPrompts where
  url : String
  positions : List Position
deriving DecidableEq, Repr

/-- `set_registration`: prompt for URL and positions, load the store, merge
the answers (positions comma-joined) into the dictionary, and save. -/
def set_registration (st : EnvStore) (p : RegPrompts) : EnvStore :=
  let c0 := load_env_variables st
  let c1 : Credentials :=
    { c0 with url := some p.url,
              positions :=
                some (joinComma (p.positions.map Position.toStr)) }
  save_to_env c1

/-- `clear_url`: `set_key(env_path, "URL", "")`. -/
def clear_url (st : EnvStore) : EnvStore :=
  { st with url := some "" }

/-- One observable browser/OS side effect. -/
inductive Action where
  | click (target : String)
  | fill (target value : String)
  | check (target : String)
  | waitMs (ms : Nat)
  | notify (message title : String)
  | logError (msg : String)
  | logInfo (msg : String)
  | screenshot (path : String)
  | closeContext
  | closeBrowser
deriving DecidableEq, Repr

/-- Selector of a position checkbox:
`input[type="checkbox"][value={position}]`. -/
def checkboxValueSel (v : String) : String :=
  "input[type=\"checkbox\"][value=" ++ v ++ "]"

/-- `handle_registration`: the straight-line form-driving sequence. -/
def handle_registration (email password signature positions : String) :
    List Action :=
  [Action.click "link Register",
   Action.click "#reg-fa",
   Action.waitMs 2000,
   Action.click "link Sign in with LeagueApps",
   Action.click "textbox Email",
   Action.fill "textbox Email" email,
   Action.click "textbox Password",
   Action.fill "textbox Password" password,
   Action.click "button Sign in with LeagueApps",
   Action.check "input[type=\"checkbox\"][value=\"I am eligible\"]"]
  ++ (positions.splitOn ",").map (fun p => Action.check (checkboxValueSel p))
  ++ [Action.click "text Next",
      Action.check "label[for=\"waiver-accept-cb-0\"]",
      Action.check "label[for=\"waiver-accept-cb-1\"]",
      Action.check "label[for=\"waiver-accept-cb-2\"]",
      Action.click "#electronicSignature",
      Action.fill "#electronicSignature" signature,
      Action.click "#register-submit",
      Action.notify "You have successfully registered for Open Play."
        "Registration Complete"]

/-- The Python exceptions relevant to the orchestrator's `try` block:
`timeoutErr` is `playwright.sync_api.TimeoutError` (the only class caught);
`otherErr` is any other exception an interaction can raise. -/
inductive PwError where
  | timeoutErr
  | otherErr
deriving DecidableEq, Repr

/-- Observable state of one navigation attempt: what `page.goto`, the
response status, the iframe wait and the visibility probes yield, plus
whether (and after how many actions, with which error class)
`handle_registration` fails. -/
structure PageEnv where
  gotoErr : Option PwError
  status : Nat
  frameAppears : Bool
  registerVisible : Bool
  capacityBtnVisible : Bool
  payNowVisible : Bool
  soldOutVisible : Bool
  formErr : Option (Nat × PwError)
deriving DecidableEq, Repr

/-- `log_path = os.path.dirname(__file__)`. -/
def log_path : String := "src/op_registration"

/-- `os.path.join(log_path, "debug_screenshot", "error_screenshot.png")`:
the deterministic diagnostic path inside the fixed debug directory. -/
def debugShotPath : String :=
  log_path ++ "/debug_screenshot/error_screenshot.png"

/-- Result of one `launch_registration_process` call: the emitted action
trace, whether `handle_registration` was invoked (and if so with which
positions string), and the exception, if any, propagating out of the call. -/
structure AttemptResult where
  acts : List Action
  driverInvoked : Bool
  positionsUsed : Option String
  err : Option PwError
deriving DecidableEq, Repr

/-- The body of the `try:` block of `launch_registration_process`
(lines 200-245): navigate, test the status, wait for the iframe, classify
by visibility, and either notify-and-return or call `handle_registration`.
The source tests `response.status not in [200, 202]` and returns early; here
the condition is stated positively with the same two branches.  A `some e`
error component means the corresponding Python statement raised `e`.
Missing dictionary values are passed on as `""` (the claims only exercise
flows in which they are populated; in Python a `None` here would itself
raise, which the `formErr`/`gotoErr` components already cover). -/
def tryBody (env : PageEnv) (c : Credentials) : AttemptResult :=
  match env.gotoErr with
  | some e => ⟨[], false, none, some e⟩
  | none =>
    if env.status = 200 ∨ env.status = 202 then
      if env.frameAppears = true then
        if env.registerVisible = true then
          let ps := c.positions.getD ""
          let acts := handle_registration (c.email.getD "")
            (c.password.getD "") (c.signature.getD "") ps
          match env.formErr with
          | some (n, e) => ⟨acts.take n, true, some ps, some e⟩
          | none => ⟨acts, true, some ps, none⟩
        else
          let branch :=
            if env.capacityBtnVisible = true then
              [Action.notify "Open Play is at capacity."
                 "Registration Status",
               Action.logInfo "Open Play is at capacity"]
            else if env.payNowVisible = true ∨ env.soldOutVisible = true then
              [Action.notify "You are already registered or sold out."
                 "Registration Status",
               Action.logInfo "Already registered or sold out"]
            else
              [Action.notify "Open Play registration link not found."
                 "Registration Error",
               Action.logError "Register link not found"]
          ⟨branch ++ [Action.screenshot debugShotPath], false, none, none⟩
      else ⟨[], false, none, some PwError.timeoutErr⟩
    else
      ⟨[Action.logError ("Page not found: " ++ c.url.getD ""),
        Action.screenshot "error_screenshot.png"], false, none, none⟩

/-- `launch_registration_process`: run the `try:` body, catch only
`TimeoutError` (log, screenshot to the debug directory), and run the
`finally:` block (close context and browser) on every exit path; any other
exception propagates after the `finally:` block. -/
def launch_registration_process (env : PageEnv) (c : Credentials) :
    AttemptResult :=
  let r := tryBody env c
  match r.err with
  | some PwError.timeoutErr =>
      ⟨r.acts ++
        [Action.logError "TimeoutError",
         Action.screenshot debugShotPath,
         Action.logInfo "Screenshot saved as error_screenshot.png",
         Action.closeContext, Action.closeBrowser],
       r.driverInvoked, r.positionsUsed, none⟩
  | some PwError.otherErr =>
      ⟨r.acts ++ [Action.closeContext, Action.closeBrowser],
       r.driverInvoked, r.positionsUsed, some PwError.otherErr⟩
  | none =>
      ⟨r.acts ++ [Action.closeContext, Action.closeBrowser],
       r.driverInvoked, r.positionsUsed, none⟩

/-- Result of one `run_automation` call: the store after the call, the
attempt's trace, the propagated exception if any, and whether the call
returned `schedule.CancelJob`. -/
structure RunResult where
  store : EnvStore
  acts : List Action
  driverInvoked : Bool
  positionsUsed : Option String
  err : Option PwError
  cancel : Bool
deriving DecidableEq, Repr

/-- `run_automation`: collect credentials, run the attempt, then
`clear_url()` and `return schedule.CancelJob`.  There is no `try/finally`
around the attempt, so an exception propagating out of
`launch_registration_process` skips both the URL reset and the
`CancelJob` return. -/
def run_automation (env : PageEnv) (st : EnvStore) (p : CredPrompts) :
    RunResult :=
  match launch_registration_process env (set_credentials st p).2 with
  | ⟨acts, inv, pu, some e⟩ =>
      ⟨(set_credentials st p).1, acts, inv, pu, some e, false⟩
  | ⟨acts, inv, pu, none⟩ =>
      ⟨clear_url (set_credentials st p).1, acts, inv, pu, none, true⟩

/-- Number of desktop notifications in a trace. -/
def notifyCount (acts : List Action) : Nat :=
  (acts.filter (fun a =>
    match a with
    | Action.notify _ _ => true
    | _ => false)).length

/-- The screenshot paths of a trace, in order. -/
def shotPaths (acts : List Action) : List String :=
  acts.filterMap (fun a =>
    match a with
    | Action.screenshot p => some p
    | _ => none)

/-- The checkbox targets of a trace, in order. -/
def checkTargets (acts : List Action) : List String :=
  acts.filterMap (fun a =>
    match a with
    | Action.check t => some t
    | _ => none)

/-- The (target, value) pairs of the fill actions of a trace, in order. -/
def fillPairs (acts : List Action) : List (String × String) :=
  acts.filterMap (fun a =>
    match a with
    | Action.fill t v => some (t, v)
    | _ => none)

/-- The click targets of a trace, in order. -/
def clickTargets (acts : List Action) : List String :=
  acts.filterMap (fun a =>
    match a with
    | Action.click t => some t
    | _ => none)

/-- The wait durations of a trace, in order. -/
def waitsOf (acts : List Action) : List Nat :=
  acts.filterMap (fun a =>
    match a with
    | Action.waitMs n => some n
    | _ => none)

/-- The (message, title) pairs of the notifications of a trace, in
order. -/
def notifySent (acts : List Action) : List (String × String) :=
  acts.filterMap (fun a =>
    match a with
    | Action.notify m t => some (m, t)
    | _ => none)

/-! ## Branch characterisations of one attempt -/

theorem tryBody_goto (env : PageEnv) (c : Credentials) (e : PwError)
    (h : env.gotoErr = some e) :
    tryBody env c = ⟨[], false, none, some e⟩ := by
  unfold tryBody
  rw [h]

theorem tryBody_badStatus (env : PageEnv) (c : Credentials)
    (h1 : env.gotoErr = none) (h2 : ¬(env.status = 200 ∨ env.status = 202)) :
    tryBody env c =
      ⟨[Action.logError ("Page not found: " ++ c.url.getD ""),
        Action.screenshot "error_screenshot.png"], false, none, none⟩ := by
  unfold tryBody
  rw [h1]
  simp only [if_neg h2]

theorem tryBody_noFrame (env : PageEnv) (c : Credentials)
    (h1 : env.gotoErr = none) (h2 : env.status = 200 ∨ env.status = 202)
    (h3 : env.frameAppears = false) :
    tryBody env c = ⟨[], false, none, some PwError.timeoutErr⟩ := by
  unfold tryBody
  rw [h1]
  simp only [if_pos h2, h3]
  simp

theorem tryBody_capacity (env : PageEnv) (c : Credentials)
    (h1 : env.gotoErr = none) (h2 : env.status = 200 ∨ env.status = 202)
    (h3 : env.frameAppears = true) (h4 : env.registerVisible = false)
    (h5 : env.capacityBtnVisible = true) :
    tryBody env c =
      ⟨[Action.notify "Open Play is at capacity." "Registration Status",
        Action.logInfo "Open Play is at capacity",
        Action.screenshot debugShotPath], false, none, none⟩ := by
  unfold tryBody
  rw [h1]
  simp only [if_pos h2, h3, h4, h5]
  simp

theorem tryBody_sold (env : PageEnv) (c : Credentials)
    (h1 : env.gotoErr = none) (h2 : env.status = 200 ∨ env.status = 202)
    (h3 : env.frameAppears = true) (h4 : env.registerVisible = false)
    (h5 : env.capacityBtnVisible = false)
    (h6 : env.payNowVisible = true ∨ env.soldOutVisible = true) :
    tryBody env c =
      ⟨[Action.notify "You are already registered or sold out."
          "Registration Status",
        Action.logInfo "Already registered or sold out",
        Action.screenshot debugShotPath], false, none, none⟩ := by
  unfold tryBody
  rw [h1]
  simp only [if_pos h2, h3, h4, h5, if_pos h6]
  simp

theorem tryBody_missing (env : PageEnv) (c : Credentials)
    (h1 : env.gotoErr = none) (h2 : env.status = 200 ∨ env.status = 202)
    (h3 : env.frameAppears = true) (h4 : env.registerVisible = false)
    (h5 : env.capacityBtnVisible = false) (h6 : env.payNowVisible = false)
    (h7 : env.soldOutVisible = false) :
    tryBody env c =
      ⟨[Action.notify "Open Play registration link not found."
          "Registration Error",
        Action.logError "Register link not found",
        Action.screenshot debugShotPath], false, none, none⟩ := by
  unfold tryBody
  rw [h1]
  simp only [if_pos h2, h3, h4, h5, h6, h7]
  simp

theorem tryBody_open (env : PageEnv) (c : Credentials)
    (h1 : env.gotoErr = none) (h2 : env.status = 200 ∨ env.status = 202)
    (h3 : env.frameAppears = true) (h4 : env.registerVisible = true)
    (h5 : env.formErr = none) :
    tryBody env c =
      ⟨handle_registration (c.email.getD "") (c.password.getD "")
         (c.signature.getD "") (c.positions.getD ""),
       true, some (c.positions.getD ""), none⟩ := by
  unfold tryBody
  rw [h1]
  simp only [if_pos h2, h3, h4, h5]
  simp

theorem tryBody_formFail (env : PageEnv) (c : Credentials) (n : Nat)
    (e : PwError)
    (h1 : env.gotoErr = none) (h2 : env.status = 200 ∨ env.status = 202)
    (h3 : env.frameAppears = true) (h4 : env.registerVisible = true)
    (h5 : env.formErr = some (n, e)) :
    tryBody env c =
      ⟨(handle_registration (c.email.getD "") (c.password.getD "")
          (c.signature.getD "") (c.positions.getD "")).take n,
       true, some (c.positions.getD ""), some e⟩ := by
  unfold tryBody
  rw [h1]
  simp only [if_pos h2, h3, h4, h5]
  simp

theorem launch_of_errNone (env : PageEnv) (c : Credentials)
    (h : (tryBody env c).err = none) :
    launch_registration_process env c =
      ⟨(tryBody env c).acts ++ [Action.closeContext, Action.closeBrowser],
       (tryBody env c).driverInvoked, (tryBody env c).positionsUsed,
       none⟩ := by
  unfold launch_registration_process
  rcases htb : tryBody env c with ⟨acts, inv, pu, err⟩
  rw [htb] at h
  cases err with
  | none => rfl
  | some e => simp at h

theorem launch_of_errTimeout (env : PageEnv) (c : Credentials)
    (h : (tryBody env c).err = some PwError.timeoutErr) :
    launch_registration_process env c =
      ⟨(tryBody env c).acts ++
        [Action.logError "TimeoutError",
         Action.screenshot debugShotPath,
         Action.logInfo "Screenshot saved as error_screenshot.png",
         Action.closeContext, Action.closeBrowser],
       (tryBody env c).driverInvoked, (tryBody env c).positionsUsed,
       none⟩ := by
  unfold launch_registration_process
  rcases htb : tryBody env c with ⟨acts, inv, pu, err⟩
  rw [htb] at h
  cases err with
  | none => simp at h
  | some e =>
    cases e with
    | timeoutErr => rfl
    | otherErr => simp at h

theorem launch_of_errOther (env : PageEnv) (c : Credentials)
    (h : (tryBody env c).err = some PwError.otherErr) :
    launch_registration_process env c =
      ⟨(tryBody env c).acts ++ [Action.closeContext, Action.closeBrowser],
       (tryBody env c).driverInvoked, (tryBody env c).positionsUsed,
       some PwError.otherErr⟩ := by
  unfold launch_registration_process
  rcases htb : tryBody env c with ⟨acts, inv, pu, err⟩
  rw [htb] at h
  cases err with
  | none => simp at h
  | some e =>
    cases e with
    | timeoutErr => simp at h
    | otherErr => rfl

/-! ## Trace extractors over the position-checkbox block -/

theorem clickTargets_append (l₁ l₂ : List Action) :
    clickTargets (l₁ ++ l₂) = clickTargets l₁ ++ clickTargets l₂ := by
  simp [clickTargets, List.filterMap_append]

theorem checkTargets_append (l₁ l₂ : List Action) :
    checkTargets (l₁ ++ l₂) = checkTargets l₁ ++ checkTargets l₂ := by
  simp [checkTargets, List.filterMap_append]

theorem fillPairs_append (l₁ l₂ : List Action) :
    fillPairs (l₁ ++ l₂) = fillPairs l₁ ++ fillPairs l₂ := by
  simp [fillPairs, List.filterMap_append]

theorem waitsOf_append (l₁ l₂ : List Action) :
    waitsOf (l₁ ++ l₂) = waitsOf l₁ ++ waitsOf l₂ := by
  simp [waitsOf, List.filterMap_append]

theorem shotPaths_append (l₁ l₂ : List Action) :
    shotPaths (l₁ ++ l₂) = shotPaths l₁ ++ shotPaths l₂ := by
  simp [shotPaths, List.filterMap_append]

theorem notifyCount_append (l₁ l₂ : List Action) :
    notifyCount (l₁ ++ l₂) = notifyCount l₁ + notifyCount l₂ := by
  simp [notifyCount, List.filter_append]

theorem clickTargets_checkMap (l : List String) :
    clickTargets (l.map (fun p => Action.check (checkboxValueSel p))) =
      [] := by
  unfold clickTargets
  induction l with
  | nil => rfl
  | cons a t ih => simp only [List.map_cons, List.filterMap_cons]; exact ih

theorem checkTargets_checkMap (l : List String) :
    checkTargets (l.map (fun p => Action.check (checkboxValueSel p))) =
      l.map checkboxValueSel := by
  unfold checkTargets
  induction l with
  | nil => rfl
  | cons a t ih => simp only [List.map_cons, List.filterMap_cons]; rw [ih]

theorem fillPairs_checkMap (l : List String) :
    fillPairs (l.map (fun p => Action.check (checkboxValueSel p))) = [] := by
  unfold fillPairs
  induction l with
  | nil => rfl
  | cons a t ih => simp only [List.map_cons, List.filterMap_cons]; exact ih

theorem waitsOf_checkMap (l : List String) :
    waitsOf (l.map (fun p => Action.check (checkboxValueSel p))) = [] := by
  unfold waitsOf
  induction l with
  | nil => rfl
  | cons a t ih => simp only [List.map_cons, List.filterMap_cons]; exact ih

theorem shotPaths_checkMap (l : List String) :
    shotPaths (l.map (fun p => Action.check (checkboxValueSel p))) = [] := by
  unfold shotPaths
  induction l with
  | nil => rfl
  | cons a t ih => simp only [List.map_cons, List.filterMap_cons]; exact ih

theorem notifyCount_checkMap (l : List String) :
    notifyCount (l.map (fun p => Action.check (checkboxValueSel p))) = 0 := by
  unfold notifyCount
  induction l with
  | nil => rfl
  | cons a t ih => simp only [List.map_cons, List.filter_cons]; simp [ih]

/-! ## Claim theorems -/

/-- C2: if the Register link is not visible while both the disabled
large-button (at-capacity) control and the Sold Out notice are visible, the
attempt emits the at-capacity notification and not the
already-registered/sold-out one — the at-capacity branch is tested first. -/
theorem c2_capacity_before_soldout (env : PageEnv) (c : Credentials)
    (h1 : env.gotoErr = none) (h2 : env.status = 200 ∨ env.status = 202)
    (h3 : env.frameAppears = true) (h4 : env.registerVisible = false)
    (h5 : env.capacityBtnVisible = true) (_h6 : env.soldOutVisible = true) :
    Action.notify "Open Play is at capacity." "Registration Status" ∈
        (launch_registration_process env c).acts ∧
    Action.notify "You are already registered or sold out."
        "Registration Status" ∉
        (launch_registration_process env c).acts := by
  have htb := tryBody_capacity env c h1 h2 h3 h4 h5
  have hl := launch_of_errNone env c (by rw [htb])
  rw [hl, htb]
  exact ⟨by decide, by decide⟩

/-- Witness for C2 at a concrete page state with both controls visible. -/
theorem c2_capacity_before_soldout_witness :
    Action.notify "Open Play is at capacity." "Registration Status" ∈
        (launch_registration_process
          ⟨none, 200, true, false, true, false, true, none⟩
          ⟨none, none, none, none, none⟩).acts ∧
    Action.notify "You are already registered or sold out."
        "Registration Status" ∉
        (launch_registration_process
          ⟨none, 200, true, false, true, false, true, none⟩
          ⟨none, none, none, none, none⟩).acts :=
  c2_capacity_before_soldout _ _ rfl (Or.inl rfl) rfl rfl rfl rfl

/-- C6: with registration open, the form driver clicks Register and the
internal start control, waits the fixed 2-second settle delay, signs in
(fills email then password and submits), checks the eligibility checkbox,
then one checkbox per `positions` entry in list order, clicks Next, checks
exactly the three waiver checkboxes indexed 0-2, fills the signature field,
clicks the final submit, and emits exactly one success notification, which
is the last action. -/
theorem c6_form_driver_sequence
    (email password signature positions : String) :
    clickTargets (handle_registration email password signature positions) =
      ["link Register", "#reg-fa", "link Sign in with LeagueApps",
       "textbox Email", "textbox Password",
       "button Sign in with LeagueApps", "text Next",
       "#electronicSignature", "#register-submit"] ∧
    waitsOf (handle_registration email password signature positions) =
      [2000] ∧
    (handle_registration email password signature positions).take 3 =
      [Action.click "link Register", Action.click "#reg-fa",
       Action.waitMs 2000] ∧
    fillPairs (handle_registration email password signature positions) =
      [("textbox Email", email), ("textbox Password", password),
       ("#electronicSignature", signature)] ∧
    checkTargets (handle_registration email password signature positions) =
      "input[type=\"checkbox\"][value=\"I am eligible\"]" ::
        ((positions.splitOn ",").map checkboxValueSel ++
         ["label[for=\"waiver-accept-cb-0\"]",
          "label[for=\"waiver-accept-cb-1\"]",
          "label[for=\"waiver-accept-cb-2\"]"]) ∧
    notifyCount (handle_registration email password signature positions) =
      1 ∧
    (handle_registration email password signature positions).getLast? =
      some (Action.notify
        "You have successfully registered for Open Play."
        "Registration Complete") := by
  unfold handle_registration
  refine ⟨?_, ?_, rfl, ?_, ?_, ?_, ?_⟩
  · rw [clickTargets_append, clickTargets_append, clickTargets_checkMap]
    simp [clickTargets, List.filterMap_cons]
  · rw [waitsOf_append, waitsOf_append, waitsOf_checkMap]
    simp [waitsOf, List.filterMap_cons]
  · rw [fillPairs_append, fillPairs_append, fillPairs_checkMap]
    simp [fillPairs, List.filterMap_cons]
  · rw [checkTargets_append, checkTargets_append, checkTargets_checkMap]
    simp [checkTargets, List.filterMap_cons]
  · rw [notifyCount_append, notifyCount_append, notifyCount_checkMap]
    simp [notifyCount, List.filter_cons]
  · rw [List.getLast?_append_of_ne_nil]
    · rfl
    · simp

/-- C1 (amended): for every classifier outcome other than
`RegistrationOpen`, the Form Driver is never invoked; the notification
matching the outcome (the at-capacity message for at-capacity, the
already-registered/sold-out message for that outcome, and the
link-not-found error message for register-link-missing) is emitted exactly
once, and no notification at all is emitted for a non-2xx page response or
for the embedded frame never appearing (those two branches only log and
capture a screenshot). -/
theorem c1_nonopen_driver_and_notifications (env : PageEnv)
    (c : Credentials) (hg : env.gotoErr = none)
    (hno : ¬(env.status = 200 ∨ env.status = 202) ∨
      env.frameAppears = false ∨ env.registerVisible = false) :
    (launch_registration_process env c).driverInvoked = false ∧
    notifySent (launch_registration_process env c).acts =
      (if (env.status = 200 ∨ env.status = 202) ∧
          env.frameAppears = true then
        (if env.capacityBtnVisible = true then
          [("Open Play is at capacity.", "Registration Status")]
         else if env.payNowVisible = true ∨ env.soldOutVisible = true then
          [("You are already registered or sold out.",
            "Registration Status")]
         else
          [("Open Play registration link not found.",
            "Registration Error")])
       else []) := by
  by_cases hs : env.status = 200 ∨ env.status = 202
  · by_cases hf : env.frameAppears = true
    · have hr : env.registerVisible = false := by
        rcases hno with h | h | h
        · exact absurd hs h
        · rw [h] at hf; exact absurd hf (by simp)
        · exact h
      rw [if_pos ⟨hs, hf⟩]
      by_cases hc : env.capacityBtnVisible = true
      · rw [if_pos hc]
        have htb := tryBody_capacity env c hg hs hf hr hc
        rw [launch_of_errNone env c (by rw [htb]), htb]
        exact ⟨rfl, rfl⟩
      · have hc' : env.capacityBtnVisible = false := by
          simpa using hc
        rw [if_neg hc]
        by_cases hp : env.payNowVisible = true ∨ env.soldOutVisible = true
        · rw [if_pos hp]
          have htb := tryBody_sold env c hg hs hf hr hc' hp
          rw [launch_of_errNone env c (by rw [htb]), htb]
          exact ⟨rfl, rfl⟩
        · have hp1 : env.payNowVisible = false := by
            rcases Bool.eq_false_or_eq_true env.payNowVisible with h | h
            · exact absurd (Or.inl h) hp
            · exact h
          have hp2 : env.soldOutVisible = false := by
            rcases Bool.eq_false_or_eq_true env.soldOutVisible with h | h
            · exact absurd (Or.inr h) hp
            · exact h
          rw [if_neg hp]
          have htb := tryBody_missing env c hg hs hf hr hc' hp1 hp2
          rw [launch_of_errNone env c (by rw [htb]), htb]
          exact ⟨rfl, rfl⟩
    · have hf' : env.frameAppears = false := by simpa using hf
      have htb := tryBody_noFrame env c hg hs hf'
      rw [launch_of_errTimeout env c (by rw [htb]), htb]
      refine ⟨rfl, ?_⟩
      rw [if_neg (fun hcon => hf hcon.2)]
      rfl
  · have htb := tryBody_badStatus env c hg hs
    rw [launch_of_errNone env c (by rw [htb]), htb]
    refine ⟨rfl, ?_⟩
    rw [if_neg (fun hcon => hs hcon.1)]
    rfl

/-- Witness for C1 at a page whose frame shows neither the Register link
nor any recognised control (register-link-missing outcome): the one
notification emitted is the link-not-found error message. -/
theorem c1_nonopen_driver_and_notifications_witness :
    (launch_registration_process
      ⟨none, 200, true, false, false, false, false, none⟩
      ⟨none, none, none, none, none⟩).driverInvoked = false ∧
    notifySent (launch_registration_process
      ⟨none, 200, true, false, false, false, false, none⟩
      ⟨none, none, none, none, none⟩).acts =
      (if ((200 : Nat) = 200 ∨ (200 : Nat) = 202) ∧ true = true then
        (if false = true then
          [("Open Play is at capacity.", "Registration Status")]
         else if false = true ∨ false = true then
          [("You are already registered or sold out.",
            "Registration Status")]
         else
          [("Open Play registration link not found.",
            "Registration Error")])
       else []) :=
  c1_nonopen_driver_and_notifications
    ⟨none, 200, true, false, false, false, false, none⟩
    ⟨none, none, none, none, none⟩ rfl (Or.inr (Or.inr rfl))

/-- Counterexample to C1 as stated: on a 404 page response (a non-open
outcome) the code logs and screenshots but emits no notification at all,
not exactly one. -/
theorem c1_counterexample_no_notification_on_404 :
    (launch_registration_process
      ⟨none, 404, true, true, true, true, true, none⟩
      ⟨none, none, none, none, none⟩).driverInvoked = false ∧
    notifyCount (launch_registration_process
      ⟨none, 404, true, true, true, true, true, none⟩
      ⟨none, none, none, none, none⟩).acts = 0 :=
  ⟨rfl, rfl⟩

/-- C3 (amended): whenever `run_automation` returns (rather than letting a
non-timeout exception propagate), the persisted URL field has been reset to
empty; a non-timeout error escaping the attempt skips the reset. -/
theorem c3_url_cleared_on_normal_return (env : PageEnv) (st : EnvStore)
    (p : CredPrompts) (h : (run_automation env st p).err = none) :
    (run_automation env st p).store.url = some "" := by
  unfold run_automation at h ⊢
  rcases hl : launch_registration_process env (set_credentials st p).2
    with ⟨acts, inv, pu, err⟩
  cases err with
  | some e => rw [hl] at h; simp at h
  | none => rfl

/-- Witness for C3 on a successful open-registration run. -/
theorem c3_url_cleared_on_normal_return_witness :
    (run_automation ⟨none, 200, true, true, false, false, false, none⟩
      ⟨none, none, none, some "http://e", some "Setter"⟩
      ⟨"a", "b", "c"⟩).err = none ∧
    (run_automation ⟨none, 200, true, true, false, false, false, none⟩
      ⟨none, none, none, some "http://e", some "Setter"⟩
      ⟨"a", "b", "c"⟩).store.url = some "" :=
  ⟨rfl, c3_url_cleared_on_normal_return _ _ _ rfl⟩

/-- Counterexample to C3 as stated: when the attempt fails with a
non-timeout error (here, `page.goto` raising a navigation error), the
exception propagates out of `run_automation` before `clear_url()` runs and
the persisted URL field keeps its old non-empty value. -/
theorem c3_counterexample_url_kept_on_error :
    (run_automation
      ⟨some PwError.otherErr, 200, true, true, false, false, false, none⟩
      ⟨none, none, none, some "http://e", some "Setter"⟩
      ⟨"a", "b", "c"⟩).store.url = some "http://e" ∧
    (run_automation
      ⟨some PwError.otherErr, 200, true, true, false, false, false, none⟩
      ⟨none, none, none, some "http://e", some "Setter"⟩
      ⟨"a", "b", "c"⟩).err = some PwError.otherErr :=
  ⟨rfl, rfl⟩

/-- C5 (amended): `run_automation` returns the `schedule.CancelJob`
sentinel exactly when it returns at all, i.e. when no non-timeout error
propagates out of the attempt (success, benign skip and caught timeout all
cancel equally); a propagating error skips the sentinel return. -/
theorem c5_cancel_iff_no_propagation (env : PageEnv) (st : EnvStore)
    (p : CredPrompts) :
    (run_automation env st p).cancel = true ↔
      (run_automation env st p).err = none := by
  unfold run_automation
  rcases hl : launch_registration_process env (set_credentials st p).2
    with ⟨acts, inv, pu, err⟩
  cases err with
  | some e => simp
  | none => simp

/-- Counterexample to C5 as stated: with a non-timeout navigation error the
attempt propagates the exception and the cancel sentinel is not returned. -/
theorem c5_counterexample_no_cancel_on_error :
    (run_automation
      ⟨some PwError.otherErr, 200, true, true, false, false, false, none⟩
      ⟨some "e@x.co", some "pw", some "sg", some "http://f", some "Middle"⟩
      ⟨"d", "e", "f"⟩).cancel = false :=
  rfl

/-- C4 (amended): every bounded-wait timeout failure inside one attempt
(raised during navigation, the iframe wait, or the form drive) is caught at
the orchestrator boundary, logged, and a screenshot is captured, and no
such timeout propagates out of `launch_registration_process`; a
non-timeout exception, however, propagates out of the attempt. -/
theorem c4_timeouts_caught (env : PageEnv) (c : Credentials)
    (h : (tryBody env c).err = some PwError.timeoutErr) :
    (launch_registration_process env c).err = none ∧
    Action.logError "TimeoutError" ∈
      (launch_registration_process env c).acts ∧
    Action.screenshot debugShotPath ∈
      (launch_registration_process env c).acts := by
  rw [launch_of_errTimeout env c h]
  refine ⟨rfl, ?_, ?_⟩ <;> simp

/-- Witness for C4 on an attempt whose iframe wait times out. -/
theorem c4_timeouts_caught_witness :
    (tryBody ⟨none, 200, false, false, false, false, false, none⟩
      ⟨none, none, none, none, none⟩).err = some PwError.timeoutErr ∧
    (launch_registration_process
      ⟨none, 200, false, false, false, false, false, none⟩
      ⟨none, none, none, none, none⟩).err = none :=
  ⟨rfl, (c4_timeouts_caught
    ⟨none, 200, false, false, false, false, false, none⟩
    ⟨none, none, none, none, none⟩ rfl).1⟩

/-- Counterexample to C4 as stated: a non-timeout failure during navigation
(`page.goto` raising `playwright.Error`) is not caught by the
`except TimeoutError` clause and propagates out of the attempt. -/
theorem c4_counterexample_other_error_propagates :
    (launch_registration_process
      ⟨some PwError.otherErr, 200, true, true, false, false, false, none⟩
      ⟨none, none, none, none, none⟩).err = some PwError.otherErr :=
  rfl

theorem shotPaths_handle (email pw sg ps : String) :
    shotPaths (handle_registration email pw sg ps) = [] := by
  unfold handle_registration
  rw [shotPaths_append, shotPaths_append, shotPaths_checkMap]
  rfl

theorem shotPaths_take_handle (email pw sg ps : String) (n : Nat) :
    shotPaths ((handle_registration email pw sg ps).take n) = [] := by
  have hsub : List.Sublist
      (shotPaths ((handle_registration email pw sg ps).take n))
      (shotPaths (handle_registration email pw sg ps)) :=
    List.Sublist.filterMap _ (List.take_sublist n _)
  rw [shotPaths_handle] at hsub
  exact List.sublist_nil.mp hsub

/-- C7 (amended): every non-open outcome of an attempt (load failure,
at-capacity, already-registered/sold-out, link-missing, or a timeout during
the iframe wait, navigation or the form drive) captures exactly one
diagnostic screenshot before the attempt finishes; all of them are written
to the deterministic path in the fixed diagnostic directory except the
load-failure one, which is written to a bare relative path in the current
working directory instead. -/
theorem c7_one_screenshot_per_nonopen (env : PageEnv) (c : Credentials)
    (h : env.gotoErr = some PwError.timeoutErr ∨
      (env.gotoErr = none ∧
        (¬(env.status = 200 ∨ env.status = 202) ∨
         env.frameAppears = false ∨ env.registerVisible = false ∨
         (∃ n, env.formErr = some (n, PwError.timeoutErr))))) :
    shotPaths (launch_registration_process env c).acts =
      [if env.gotoErr = none ∧ ¬(env.status = 200 ∨ env.status = 202)
       then "error_screenshot.png" else debugShotPath] := by
  rcases h with hg | ⟨hg, hrest⟩
  · have htb := tryBody_goto env c _ hg
    rw [launch_of_errTimeout env c (by rw [htb]), htb]
    rw [if_neg (fun hcon => by rw [hg] at hcon; exact Option.noConfusion hcon.1)]
    rfl
  · by_cases hs : env.status = 200 ∨ env.status = 202
    · rw [if_neg (fun hcon => hcon.2 hs)]
      by_cases hf : env.frameAppears = true
      · by_cases hr : env.registerVisible = true
        · have hform : ∃ n, env.formErr = some (n, PwError.timeoutErr) := by
            rcases hrest with h' | h' | h' | h'
            · exact absurd hs h'
            · rw [h'] at hf; exact absurd hf (by simp)
            · rw [h'] at hr; exact absurd hr (by simp)
            · exact h'
          obtain ⟨n, hn⟩ := hform
          have htb := tryBody_formFail env c n _ hg hs hf hr hn
          rw [launch_of_errTimeout env c (by rw [htb]), htb]
          rw [shotPaths_append, shotPaths_take_handle]
          rfl
        · have hr' : env.registerVisible = false := by simpa using hr
          by_cases hc : env.capacityBtnVisible = true
          · have htb := tryBody_capacity env c hg hs hf hr' hc
            rw [launch_of_errNone env c (by rw [htb]), htb]
            rfl
          · have hc' : env.capacityBtnVisible = false := by simpa using hc
            by_cases hp : env.payNowVisible = true ∨
                env.soldOutVisible = true
            · have htb := tryBody_sold env c hg hs hf hr' hc' hp
              rw [launch_of_errNone env c (by rw [htb]), htb]
              rfl
            · have hp1 : env.payNowVisible = false := by
                rcases Bool.eq_false_or_eq_true env.payNowVisible with h' | h'
                · exact absurd (Or.inl h') hp
                · exact h'
              have hp2 : env.soldOutVisible = false := by
                rcases Bool.eq_false_or_eq_true env.soldOutVisible with h' | h'
                · exact absurd (Or.inr h') hp
                · exact h'
              have htb := tryBody_missing env c hg hs hf hr' hc' hp1 hp2
              rw [launch_of_errNone env c (by rw [htb]), htb]
              rfl
      · have hf' : env.frameAppears = false := by simpa using hf
        have htb := tryBody_noFrame env c hg hs hf'
        rw [launch_of_errTimeout env c (by rw [htb]), htb]
        rfl
    · rw [if_pos ⟨hg, hs⟩]
      have htb := tryBody_badStatus env c hg hs
      rw [launch_of_errNone env c (by rw [htb]), htb]
      rfl

/-- Witness for C7 at an at-capacity page: one screenshot, to the debug
directory. -/
theorem c7_one_screenshot_per_nonopen_witness :
    shotPaths (launch_registration_process
      ⟨none, 200, true, false, true, false, false, none⟩
      ⟨none, none, none, none, none⟩).acts =
      [if (none : Option PwError) = none ∧
          ¬((200 : Nat) = 200 ∨ (200 : Nat) = 202)
       then "error_screenshot.png" else debugShotPath] :=
  c7_one_screenshot_per_nonopen
    ⟨none, 200, true, false, true, false, false, none⟩
    ⟨none, none, none, none, none⟩
    (Or.inr ⟨rfl, Or.inr (Or.inr (Or.inl rfl))⟩)

/-- Counterexample to C7 as stated: on a 404 response (a non-open outcome)
the single screenshot is written to the bare relative path
`error_screenshot.png`, not to the fixed diagnostic directory. -/
theorem c7_counterexample_load_failure_path :
    shotPaths (launch_registration_process
      ⟨none, 404, true, true, false, false, false, none⟩
      ⟨none, none, none, none, none⟩).acts = ["error_screenshot.png"] ∧
    ("error_screenshot.png" : String) ≠ debugShotPath :=
  ⟨rfl, by decide⟩

/-- C8 (code bug): `set_credentials` prompts for and overwrites all three
credential fields unconditionally; evaluating it on a store whose EMAIL,
PASSWORD and SIGNATURE are present and non-empty shows the loaded values
are replaced by the prompt answers rather than preserved (contradicting the
function's own docstring, which says only missing values are prompted).
The save-after-merge half of the claim does hold: all keys are written
back. -/
theorem c8_prompts_overwrite_loaded :
    (set_credentials
      ⟨some "old@x.co", some "oldpw", some "oldsig", some "u",
        some "Setter"⟩
      ⟨"new@x.co", "newpw", "newsig"⟩).1 =
      ⟨some "new@x.co", some "newpw", some "newsig", some "u",
        some "Setter"⟩ ∧
    some "new@x.co" ≠ some "old@x.co" :=
  ⟨rfl, by decide⟩

/-! ## Non-whitespace strings pass through `pyStrip` unchanged -/

/-- C10: starting from a store whose EMAIL, PASSWORD and SIGNATURE are
present with already-trimmed values, `set_registration` changes only the
URL and POSITIONS keys; the three credential keys are rewritten with their
previously loaded values and are therefore unchanged. -/
theorem c10_set_registration_frame (st : EnvStore) (rp : RegPrompts)
    (e pw sg : String)
    (he : st.email = some e) (he2 : pyStrip e = e)
    (hp : st.password = some pw) (hp2 : pyStrip pw = pw)
    (hs : st.signature = some sg) (hs2 : pyStrip sg = sg) :
    (set_registration st rp).email = some e ∧
    (set_registration st rp).password = some pw ∧
    (set_registration st rp).signature = some sg ∧
    (set_registration st rp).url = some (pyStrip rp.url) ∧
    (set_registration st rp).positions =
      some (pyStrip (joinComma (rp.positions.map Position.toStr))) := by
  unfold set_registration save_to_env load_env_variables setKey
  simp [he, hp, hs, he2, hp2, hs2]

/-- Witness for C10 on a concrete populated store. -/
theorem c10_set_registration_frame_witness :
    (set_registration
      ⟨some "a@b.co", some "pw", some "sig", some "old", some "Middle"⟩
      ⟨"http://new", [Position.Setter]⟩).email = some "a@b.co" ∧
    (set_registration
      ⟨some "a@b.co", some "pw", some "sig", some "old", some "Middle"⟩
      ⟨"http://new", [Position.Setter]⟩).password = some "pw" ∧
    (set_registration
      ⟨some "a@b.co", some "pw", some "sig", some "old", some "Middle"⟩
      ⟨"http://new", [Position.Setter]⟩).signature = some "sig" ∧
    (set_registration
      ⟨some "a@b.co", some "pw", some "sig", some "old", some "Middle"⟩
      ⟨"http://new", [Position.Setter]⟩).url =
      some (pyStrip "http://new") ∧
    (set_registration
      ⟨some "a@b.co", some "pw", some "sig", some "old", some "Middle"⟩
      ⟨"http://new", [Position.Setter]⟩).positions =
      some (pyStrip (joinComma ([Position.Setter].map Position.toStr))) :=
  c10_set_registration_frame
    ⟨some "a@b.co", some "pw", some "sig", some "old", some "Middle"⟩
    ⟨"http://new", [Position.Setter]⟩
    "a@b.co" "pw" "sig" rfl (by decide) rfl (by decide) rfl (by decide)

end OpReg
